import Mathlib

/-!
Verification development for the `weather_report` plugin (`main.py`,
class `WeatherStar`).  Strings are modelled as `List Char`; Python's
`re` patterns used by `_parse_weather` are modelled by explicit
character-list scanners that follow the patterns' leftmost / lazy /
greedy semantics (with `\d` modelled as the ASCII digits `0`-`9` and
`.` never matching a newline, as in Python without `re.DOTALL`).
The network is modelled by an oracle giving the outcome of each HTTP
GET; the per-instance cache is a function from location strings to
optional Python values.
-/

deriving instance DecidableEq for Except

namespace WeatherStar

/-- `startsWith lit s` holds when `lit` is a leading segment of `s`. -/
def startsWith : List Char → List Char → Bool
  | [], _ => true
  | _ :: _, [] => false
  | p :: ps, c :: cs => p == c && startsWith ps cs

/-- Strip the literal `lit` from the front of `s`, if present. -/
def stripLit (lit s : List Char) : Option (List Char) :=
  if startsWith lit s then some (List.drop lit.length s) else none

/-- `\d` of the pattern, modelled on the ASCII decimal digits. -/
def pyDigit (c : Char) : Bool := decide ('0' ≤ c) && decide (c ≤ '9')

/-- `[\d.]` of the base-info pattern. -/
def digitOrDot (c : Char) : Bool := pyDigit c || c == '.'

/-- literal `温度：` of the base-info pattern -/
def tempLit : List Char := "温度：".data

/-- literal `℃\n体感：` of the base-info pattern -/
def feelLit : List Char := "℃\n体感：".data

/-- literal `℃\n湿度：` of the base-info pattern -/
def humLit : List Char := "℃\n湿度：".data

/-- literal `【预警中】` of the warning pattern -/
def warnLit : List Char := "【预警中】".data

/-- literal `（数据来源：` inside the warning pattern's group -/
def srcLit : List Char := "（数据来源：".data

/-- literal `）` closing the warning pattern's group -/
def closeLit : List Char := "）".data

/-- literal `您` of the rain pattern -/
def ninLit : List Char := "您".data

/-- literal `正在下` of the rain pattern -/
def zzxLit : List Char := "正在下".data

/-- literal `，` of the rain pattern -/
def commaLit : List Char := "，".data

/-- literal `正在` used when formatting the rain message -/
def zaiLit : List Char := "正在".data

/-- `re.search(r"^(.*?)\n温度：(\d+)℃\n体感：([\d.]+)℃\n湿度：(\d+)%", raw)`.
Anchored at position 0 (no `re.MULTILINE`); the lazy first group cannot
contain a newline and is followed by `\n`, so it is exactly the text before
the first newline; each greedy numeric group is a maximal run because the
character after it (`℃` or `%`) is not in the group's class.  Returns the
four groups on success. -/
def matchBase (s : List Char) : Option (List Char × List Char × List Char × List Char) :=
  let line1 := s.takeWhile (fun c => c != '\n')
  match s.dropWhile (fun c => c != '\n') with
  | [] => none
  | _ :: r1 =>
    match stripLit tempLit r1 with
    | none => none
    | some r2 =>
      let d1 := r2.takeWhile pyDigit
      if d1.isEmpty then none else
      match stripLit feelLit (r2.dropWhile pyDigit) with
      | none => none
      | some r4 =>
        let f := r4.takeWhile digitOrDot
        if f.isEmpty then none else
        match stripLit humLit (r4.dropWhile digitOrDot) with
        | none => none
        | some r6 =>
          let d2 := r6.takeWhile pyDigit
          if d2.isEmpty then none else
          match r6.dropWhile pyDigit with
          | c :: _ => if c == '%' then some (line1, d1, f, d2) else none
          | [] => none

/-- Lazy `(.*?)lit` followed by continuation `k`: finds the shortest
newline-free segment `a` with input `= a ++ lit ++ t` and `k t` succeeding
(backtracking to a longer `a` when `k` fails), as a Python regex engine
does for a lazy group followed by a literal. -/
def lazyUpTo {α : Type} (lit : List Char) (k : List Char → Option α) : List Char → Option (List Char × α)
  | [] =>
    match (stripLit lit []).bind k with
    | some v => some ([], v)
    | none => none
  | c :: cs =>
    match (stripLit lit (c :: cs)).bind k with
    | some v => some ([], v)
    | none =>
      if c == '\n' then none
      else
        match lazyUpTo lit k cs with
        | some (a, v) => some (c :: a, v)
        | none => none

/-- Match the group `(.*?（数据来源：.*?）)` of the warning pattern right
after the literal `【预警中】`; returns the full group text and the rest of
the input after the match. -/
def findWarnGroup (s : List Char) : Option (List Char × List Char) :=
  match lazyUpTo srcLit (fun t => lazyUpTo closeLit (fun r => some r) t) s with
  | some (a, (b, r)) => some (a ++ srcLit ++ b ++ closeLit, r)
  | none => none

/-- Scan for the non-overlapping, left-to-right matches collected by
`re.findall(r"【预警中】(.*?（数据来源：.*?）)", raw)`; fuel bounds the scan
(one unit per input position suffices). -/
def findallWarnAux : Nat → List Char → List (List Char)
  | 0, _ => []
  | _ + 1, [] => []
  | fuel + 1, c :: cs =>
    match (stripLit warnLit (c :: cs)).bind findWarnGroup with
    | some (g, r) => g :: findallWarnAux fuel r
    | none => findallWarnAux fuel cs

/-- `re.findall(r"【预警中】(.*?（数据来源：.*?）)", raw)`. -/
def findallWarn (s : List Char) : List (List Char) := findallWarnAux (s.length + 1) s

/-- `re.search(r"您(.*?)正在下(.*?)，", raw)`: leftmost match, lazy groups;
returns the two groups. -/
def reSearchRain : List Char → Option (List Char × List Char)
  | [] => none
  | c :: cs =>
    match (stripLit ninLit (c :: cs)).bind
        (fun t => lazyUpTo zzxLit (fun u => lazyUpTo commaLit (fun r => some r) u) t) with
    | some (g1, (g2, _)) => some (g1, g2)
    | none => reSearchRain cs

/-- default `location` value of `_parse_weather` -/
def unknownLoc : List Char := "未知地区".data

/-- default `temp` / `feel_temp` / `humidity` value of `_parse_weather` -/
def naStr : List Char := "N/A".data

/-- The dictionary built by `_parse_weather`: its six keys are fixed. -/
structure WeatherData where
  location : List Char
  temp : List Char
  feel_temp : List Char
  humidity : List Char
  warnings : List (List Char)
  rains : List (List Char)
deriving DecidableEq, Repr

/-- `WeatherStar._parse_weather`. -/
def parse_weather (raw : List Char) : WeatherData :=
  let r0 : WeatherData :=
    { location := unknownLoc, temp := naStr, feel_temp := naStr,
      humidity := naStr, warnings := [], rains := [] }
  let r1 :=
    match matchBase raw with
    | some (l, d1, f, d2) =>
      { r0 with
        location := l,
        temp := d1 ++ "℃".data,
        feel_temp := f ++ "℃".data,
        humidity := d2 ++ "%".data }
    | none => r0
  let r2 := { r1 with warnings := (findallWarn raw).map (fun w => "⚠️ ".data ++ w) }
  match reSearchRain raw with
  | some (g1, g2) => { r2 with rains := ["🌧️ ".data ++ g1 ++ zaiLit ++ g2] }
  | none => r2

/-- `"\n".join(msg)` -/
def joinNl : List (List Char) → List Char
  | [] => []
  | [x] => x
  | x :: y :: xs => x ++ '\n' :: joinNl (y :: xs)

/-- `" ".join(args)` -/
def joinSp : List (List Char) → List Char
  | [] => []
  | [x] => x
  | x :: y :: xs => x ++ ' ' :: joinSp (y :: xs)

/-- `WeatherStar._build_message`. -/
def build_message (d : WeatherData) : List Char :=
  let msg : List (List Char) := ["🌏【".data ++ d.location ++ "天气速报】".data]
  let msg := msg ++
    ["🌡️ 温度：".data ++ d.temp ++ "（体感".data ++ d.feel_temp ++ "）".data,
     "💧 湿度：".data ++ d.humidity,
     []]
  let msg := if d.warnings.isEmpty then msg else msg ++ ("🚨 气象预警：".data :: d.warnings) ++ [[]]
  let msg := if d.rains.isEmpty then msg else msg ++ ("🌧️ 降水提醒：".data :: d.rains) ++ [[]]
  let msg := msg ++ ["📡 数据来源：中国气象局".data, "🔍 输入【天气帮助】获取使用指南".data]
  joinNl msg

/-- `self.main_api` -/
def main_api : List Char := "https://xiaoapi.cn/API/tq.php".data

/-- `self.backup_api` -/
def backup_api : List Char := "https://api.weather.backup/v3".data

/-- `self.timeout = aiohttp.ClientTimeout(total=10)` -/
def timeout_total : Nat := 10

/-- `self.retry_count = 2` -/
def retry_count : Nat := 2

/-- Outcome of one outbound HTTP GET, supplied by the network oracle:
a response with a status and a body, an `aiohttp.ClientError`, or any
other exception raised by the request. -/
inductive NetResult where
  | resp (status : Nat) (body : List Char)
  | clientError
  | otherExn
deriving DecidableEq, Repr

/-- An outbound HTTP GET as issued by the code: the target URL and the
total timeout the issuing `ClientSession` was configured with (`none`
when the session is created without an explicit timeout). -/
structure HttpGet where
  url : List Char
  timeoutTotal : Option Nat
deriving DecidableEq, Repr

/-- The GET issued by `_fetch_data`: primary URL, session built with
`timeout=self.timeout`. -/
def primaryReq : HttpGet := { url := main_api, timeoutTotal := some timeout_total }

/-- The GET issued by `_try_backup_api`: backup URL, session built with
no explicit timeout. -/
def backupReq : HttpGet := { url := backup_api, timeoutTotal := none }

/-- Dynamically-typed Python values stored in `self.cache`. -/
inductive PyVal where
  | float (t : Nat)
  | str (s : List Char)
  | tuple2 (a b : PyVal)
deriving DecidableEq, Repr

/-- The exceptions the embedding distinguishes. -/
inductive PyExn where
  | typeError
  | otherError
deriving DecidableEq, Repr

/-- Python `-` on a float and an arbitrary value: defined on two floats,
`TypeError` otherwise (in particular on `float - tuple`). -/
def pySub : PyVal → PyVal → Except PyExn PyVal
  | .float a, .float b => .ok (.float (a - b))
  | _, _ => .error .typeError

/-- Python `<` between a value and an integer literal. -/
def pyLtNat : PyVal → Nat → Except PyExn Bool
  | .float a, n => .ok (decide (a < n))
  | _, _ => .error .typeError

/-- Python truthiness of a cached value (a nonempty tuple is truthy). -/
def pyTruthy : PyVal → Bool
  | .float t => t != 0
  | .str s => !s.isEmpty
  | .tuple2 _ _ => true

/-- `self.cache`: a location-keyed dictionary. -/
abbrev Cache := List Char → Option PyVal

/-- `self.cache[k] = v` -/
def Cache.insert (c : Cache) (k : List Char) (v : PyVal) : Cache :=
  fun k' => if k' = k then some v else c k'

/-- The empty dictionary `self.cache = {}` of `__init__`. -/
def emptyCache : Cache := fun _ => none

/-- Result of `_fetch_data`: the returned `Optional[str]` (or the
exception that escaped it), the cache afterwards, and the GETs issued. -/
structure FetchOut where
  result : Except PyExn (Option (List Char))
  cache : Cache
  reqs : List HttpGet

/-- `WeatherStar._try_backup_api`: one GET to the backup URL; body on
HTTP 200, `None` on any other status, and `None` on any exception
(`except Exception` absorbs them all).  Returns the value and the GETs
issued. -/
def try_backup_api (b : NetResult) : Option (List Char) × List HttpGet :=
  match b with
  | .resp s body => (if s = 200 then some body else none, [backupReq])
  | .clientError => (none, [backupReq])
  | .otherExn => (none, [backupReq])

/-- The `for attempt in range(self.retry_count + 1)` loop of
`_fetch_data`, over the remaining attempt indices.  `p` gives the
outcome of the primary GET at each attempt; `b` the outcome of the
backup GET; `t` is `time.time()` at the cache store. On HTTP 200 the
body is cached under the location and returned; on any other status the
loop logs and continues; on `aiohttp.ClientError` it falls back to
`_try_backup_api` when `attempt >= self.retry_count` and otherwise
continues; any other exception propagates. -/
def fetch_loop (p : Nat → NetResult) (b : NetResult) (t : Nat) (l : List Char) :
    List Nat → Cache → List HttpGet → FetchOut
  | [], c, reqs => ⟨.ok none, c, reqs⟩
  | a :: rest, c, reqs =>
    match p a with
    | .resp s body =>
      if s = 200 then
        ⟨.ok (some body), Cache.insert c l (.tuple2 (.float t) (.str body)), reqs ++ [primaryReq]⟩
      else fetch_loop p b t l rest c (reqs ++ [primaryReq])
    | .clientError =>
      if retry_count ≤ a then
        ⟨.ok (try_backup_api b).1, c, reqs ++ [primaryReq] ++ (try_backup_api b).2⟩
      else fetch_loop p b t l rest c (reqs ++ [primaryReq])
    | .otherExn => ⟨.error .otherError, c, reqs ++ [primaryReq]⟩

/-- `WeatherStar._fetch_data`. -/
def fetch_data (p : Nat → NetResult) (b : NetResult) (t : Nat) (l : List Char) (c : Cache) : FetchOut :=
  fetch_loop p b t l (List.range (retry_count + 1)) c []

/-- A reply yielded by the handler: `CommandResult().message(...)` or
`CommandResult().error(...)`. -/
inductive Reply where
  | message (s : List Char)
  | error (s : List Char)
deriving DecidableEq, Repr

/-- The incoming event: its parsed argument list. -/
structure Event where
  args : List (List Char)
deriving DecidableEq, Repr

/-- The error string of the missing-address reply. -/
def addr_prompt : List Char := "📍 请提供查询地址（例：天气 北京朝阳区）".data

/-- The fixed error string yielded by the handler's `except` clause. -/
def radar_lost : List Char := "🌩️ 天气雷达信号丢失，请稍后重试".data

/-- The waiting message yielded before the cache check. -/
def waiting_message (location : List Char) : List Char :=
  "⛅ 正在卫星定位【".data ++ location ++ "】...".data

/-- `WeatherStar._get_error_help` (adjacent string literals joined). -/
def get_error_help : List Char :=
  ("⚠️ 服务暂时不可用\n\n可能原因：\n1. 网络连接不稳定\n2. 查询地址不准确\n3. 气象服务维护\n\n建议操作：\n• 检查输入地址格式\n• 使用【网络诊断】功能\n• 稍后重新尝试查询").data

/-- What the `try` body of `get_weather` produces: the replies yielded
so far, the cache and GETs afterwards, and the exception that escaped
the body, if any. -/
structure BodyOut where
  replies : List Reply
  cache : Cache
  reqs : List HttpGet
  raised : Option PyExn

/-- The tail of `get_weather` after a cache miss or stale entry:
`_fetch_data`, then either the formatted message, or the error help on
`None`; an exception escaping `_fetch_data` escapes the body. -/
def fetch_branch (p : Nat → NetResult) (b : NetResult) (t : Nat) (loc : List Char)
    (c : Cache) (waiting : Reply) : BodyOut :=
  match (fetch_data p b t loc c).result with
  | .error e =>
    { replies := [waiting], cache := (fetch_data p b t loc c).cache,
      reqs := (fetch_data p b t loc c).reqs, raised := some e }
  | .ok (some raw) =>
    { replies := [waiting, .message (build_message (parse_weather raw))],
      cache := (fetch_data p b t loc c).cache, reqs := (fetch_data p b t loc c).reqs,
      raised := none }
  | .ok none =>
    { replies := [waiting, .error get_error_help], cache := (fetch_data p b t loc c).cache,
      reqs := (fetch_data p b t loc c).reqs, raised := none }

/-- The `try` body of `get_weather`: argument check, waiting message,
cache check (`if cached := self.cache.get(location):` followed by
`if time.time() - cached < 300:`, which subtracts the cached value — the
`(timestamp, text)` tuple — from a float), then fetch.  `n` is
`time.time()` at the cache check, `t` at the cache store. -/
def get_weather_body (p : Nat → NetResult) (b : NetResult) (n t : Nat) (c : Cache)
    (ev : Event) : BodyOut :=
  if ev.args.isEmpty then
    { replies := [.error addr_prompt], cache := c, reqs := [], raised := none }
  else
    let location := joinSp ev.args
    let waiting : Reply := .message (waiting_message location)
    match c location with
    | some cached =>
      if pyTruthy cached then
        match pySub (.float n) cached with
        | .error e => { replies := [waiting], cache := c, reqs := [], raised := some e }
        | .ok diff =>
          match pyLtNat diff 300 with
          | .error e => { replies := [waiting], cache := c, reqs := [], raised := some e }
          | .ok true =>
            match cached with
            | .str s =>
              { replies := [waiting, .message (build_message (parse_weather s))],
                cache := c, reqs := [], raised := none }
            | _ => { replies := [waiting], cache := c, reqs := [], raised := some .typeError }
          | .ok false => fetch_branch p b t location c waiting
      else fetch_branch p b t location c waiting
    | none => fetch_branch p b t location c waiting

/-- What one handler invocation produces: the replies yielded, the cache
and the GETs issued, and the exception escaping the handler, if any. -/
structure HandlerOut where
  replies : List Reply
  cache : Cache
  reqs : List HttpGet
  raised : Option PyExn

/-- `WeatherStar.get_weather`: the `try` body wrapped in
`except Exception`, which yields the fixed radar-lost error string. -/
def get_weather (p : Nat → NetResult) (b : NetResult) (n t : Nat) (c : Cache)
    (ev : Event) : HandlerOut :=
  match (get_weather_body p b n t c ev).raised with
  | none =>
    { replies := (get_weather_body p b n t c ev).replies,
      cache := (get_weather_body p b n t c ev).cache,
      reqs := (get_weather_body p b n t c ev).reqs, raised := none }
  | some _ =>
    { replies := (get_weather_body p b n t c ev).replies ++ [.error radar_lost],
      cache := (get_weather_body p b n t c ev).cache,
      reqs := (get_weather_body p b n t c ev).reqs, raised := none }

/-- One command invocation's inputs: the network oracle for the primary
attempts and the backup call, the two `time.time()` readings, and the
incoming event. -/
structure Invocation where
  primary : Nat → NetResult
  backup : NetResult
  nowCheck : Nat
  tStore : Nat
  ev : Event

/-- Run one invocation against a cache. -/
def runInv (inv : Invocation) (c : Cache) : HandlerOut :=
  get_weather inv.primary inv.backup inv.nowCheck inv.tStore c inv.ev

/-- Run a sequence of invocations, threading the cache. -/
def runSeq : List Invocation → Cache → Cache
  | [], c => c
  | inv :: rest, c => runSeq rest (runInv inv c).cache

/-- Number of GETs addressed to the primary API in a request list. -/
def countPrimary (reqs : List HttpGet) : Nat :=
  (reqs.filter (fun r => decide (r.url = main_api))).length

/-- A primary-attempt outcome on which the `_fetch_data` loop moves on
to the next attempt instead of returning. -/
def loopCont : NetResult → Bool
  | .resp s _ => s != 200
  | .clientError => true
  | .otherExn => false

/-- A sample primary-API response body used in concrete runs. -/
def sampleBody : List Char := ("北京\n温度：20℃\n体感：22.5℃\n湿度：50%").data

/-- A sample location string. -/
def locEx : List Char := "北京".data

/-- An event carrying the sample location as its only argument. -/
def evEx : Event := ⟨[locEx]⟩

/-- An event with no arguments. -/
def evNoArgs : Event := ⟨[]⟩

/-- Oracle under which every primary attempt answers HTTP 200 with the
sample body. -/
def pOk : Nat → NetResult := fun _ => .resp 200 sampleBody

/-- Oracle under which every primary attempt answers HTTP 500. -/
def pAll500 : Nat → NetResult := fun _ => .resp 500 []

/-- Oracle under which every primary attempt raises
`aiohttp.ClientError`. -/
def pAllCE : Nat → NetResult := fun _ => .clientError

/-- Backup oracle answering HTTP 200 with the sample body. -/
def bOk : NetResult := .resp 200 sampleBody

/-- A cache holding the entry `(100, sampleBody)` for the sample
location, exactly as a successful primary fetch at time 100 stores it. -/
def cacheWithEntry : Cache :=
  fun k => if k = locEx then some (.tuple2 (.float 100) (.str sampleBody)) else none

/-- An invocation whose first primary attempt succeeds, storing into the
cache at time 7. -/
def invOk : Invocation := ⟨pOk, bOk, 0, 7, evEx⟩

/-- An input on which none of the parser's patterns matches. -/
def noMatchEx : List Char := "没有匹配".data

theorem try_backup_api_reqs (b : NetResult) : (try_backup_api b).2 = [backupReq] := by
  cases b <;> rfl

theorem backupReq_ne_primaryReq : backupReq ≠ primaryReq := by decide

theorem fetch_loop_stop (p : Nat → NetResult) (b : NetResult) (t : Nat) (l : List Char)
    (a : Nat) (rest : List Nat) (c : Cache) (reqs : List HttpGet)
    (h : loopCont (p a) = false) :
    (fetch_loop p b t l (a :: rest) c reqs).reqs = reqs ++ [primaryReq] := by
  rcases hpa : p a with ⟨s, body⟩ | _ | _ <;> rw [hpa] at h <;> simp [loopCont] at h
  · simp [fetch_loop, hpa, h]
  · simp [fetch_loop, hpa]

theorem fetch_loop_cont (p : Nat → NetResult) (b : NetResult) (t : Nat) (l : List Char)
    (a : Nat) (rest : List Nat) (c : Cache) (reqs : List HttpGet)
    (h : loopCont (p a) = true) (ha : a < retry_count) :
    fetch_loop p b t l (a :: rest) c reqs = fetch_loop p b t l rest c (reqs ++ [primaryReq]) := by
  rcases hpa : p a with ⟨s, body⟩ | _ | _ <;> rw [hpa] at h <;> simp [loopCont] at h
  · simp [fetch_loop, hpa, h]
  · simp [fetch_loop, hpa, Nat.not_le.mpr ha]

theorem fetch_loop_backup (p : Nat → NetResult) (b : NetResult) (t : Nat) (l : List Char)
    (a : Nat) (rest : List Nat) (c : Cache) (reqs : List HttpGet)
    (hce : p a = NetResult.clientError) (ha : retry_count ≤ a) :
    (fetch_loop p b t l (a :: rest) c reqs).reqs = reqs ++ [primaryReq] ++ [backupReq] := by
  simp [fetch_loop, hce, ha, try_backup_api_reqs]

theorem fetch_loop_reqs_len (p : Nat → NetResult) (b : NetResult) (t : Nat) (l : List Char)
    (atts : List Nat) : ∀ (c : Cache) (reqs : List HttpGet),
    (fetch_loop p b t l atts c reqs).reqs.length ≤ reqs.length + atts.length + 1 := by
  induction atts with
  | nil => intro c reqs; simp [fetch_loop]
  | cons a rest ih =>
    intro c reqs
    rcases hpa : p a with ⟨s, body⟩ | _ | _
    · by_cases hs : s = 200
      · simp [fetch_loop, hpa, hs]
      · have := ih c (reqs ++ [primaryReq])
        simp at this
        simp [fetch_loop, hpa, hs]
        omega
    · by_cases ha : retry_count ≤ a
      · simp [fetch_loop, hpa, ha, try_backup_api_reqs]
      · have := ih c (reqs ++ [primaryReq])
        simp at this
        simp [fetch_loop, hpa, ha]
        omega
    · simp [fetch_loop, hpa]

theorem fetch_loop_eq_success (p : Nat → NetResult) (b : NetResult) (t : Nat) (l : List Char)
    (a : Nat) (rest : List Nat) (c : Cache) (reqs : List HttpGet) (body : List Char)
    (hpa : p a = NetResult.resp 200 body) :
    fetch_loop p b t l (a :: rest) c reqs =
      ⟨.ok (some body), Cache.insert c l (.tuple2 (.float t) (.str body)),
       reqs ++ [primaryReq]⟩ := by
  simp [fetch_loop, hpa]

theorem fetch_loop_eq_cont_resp (p : Nat → NetResult) (b : NetResult) (t : Nat) (l : List Char)
    (a : Nat) (rest : List Nat) (c : Cache) (reqs : List HttpGet) (s : Nat) (body : List Char)
    (hpa : p a = NetResult.resp s body) (hs : ¬ s = 200) :
    fetch_loop p b t l (a :: rest) c reqs = fetch_loop p b t l rest c (reqs ++ [primaryReq]) := by
  simp [fetch_loop, hpa, hs]

theorem fetch_loop_eq_cont_ce (p : Nat → NetResult) (b : NetResult) (t : Nat) (l : List Char)
    (a : Nat) (rest : List Nat) (c : Cache) (reqs : List HttpGet)
    (hpa : p a = NetResult.clientError) (ha : ¬ retry_count ≤ a) :
    fetch_loop p b t l (a :: rest) c reqs = fetch_loop p b t l rest c (reqs ++ [primaryReq]) := by
  simp [fetch_loop, hpa, ha]

theorem fetch_loop_eq_backup (p : Nat → NetResult) (b : NetResult) (t : Nat) (l : List Char)
    (a : Nat) (rest : List Nat) (c : Cache) (reqs : List HttpGet)
    (hpa : p a = NetResult.clientError) (ha : retry_count ≤ a) :
    fetch_loop p b t l (a :: rest) c reqs =
      ⟨.ok (try_backup_api b).1, c, reqs ++ [primaryReq] ++ [backupReq]⟩ := by
  simp [fetch_loop, hpa, ha, try_backup_api_reqs]

theorem fetch_loop_eq_raise (p : Nat → NetResult) (b : NetResult) (t : Nat) (l : List Char)
    (a : Nat) (rest : List Nat) (c : Cache) (reqs : List HttpGet)
    (hpa : p a = NetResult.otherExn) :
    fetch_loop p b t l (a :: rest) c reqs = ⟨.error .otherError, c, reqs ++ [primaryReq]⟩ := by
  simp [fetch_loop, hpa]

theorem fetch_loop_reqs_mem (p : Nat → NetResult) (b : NetResult) (t : Nat) (l : List Char)
    (atts : List Nat) : ∀ (c : Cache) (reqs : List HttpGet) (r : HttpGet),
    r ∈ (fetch_loop p b t l atts c reqs).reqs → r ∈ reqs ∨ r = primaryReq ∨ r = backupReq := by
  induction atts with
  | nil => intro c reqs r h; simp [fetch_loop] at h; exact Or.inl h
  | cons a rest ih =>
    intro c reqs r h
    rcases hpa : p a with ⟨s, body⟩ | _ | _
    · by_cases hs : s = 200
      · simp [fetch_loop, hpa, hs] at h
        tauto
      · simp only [fetch_loop, hpa] at h
        rw [if_neg hs] at h
        rcases ih c (reqs ++ [primaryReq]) r h with h1 | h1
        · simp at h1
          tauto
        · tauto
    · by_cases ha : retry_count ≤ a
      · rw [fetch_loop_backup p b t l a rest c reqs hpa ha] at h
        simp at h
        tauto
      · rw [fetch_loop_cont p b t l a rest c reqs (by simp [loopCont, hpa]) (Nat.not_le.mp ha)] at h
        rcases ih c (reqs ++ [primaryReq]) r h with h1 | h1
        · simp at h1
          tauto
        · tauto
    · simp [fetch_loop, hpa] at h
      tauto

theorem countPrimary_append (xs ys : List HttpGet) :
    countPrimary (xs ++ ys) = countPrimary xs + countPrimary ys := by
  simp [countPrimary, List.filter_append]

theorem countPrimary_primaryReq : countPrimary [primaryReq] = 1 := by decide

theorem countPrimary_backupReq : countPrimary [backupReq] = 0 := by decide

theorem fetch_loop_countPrimary (p : Nat → NetResult) (b : NetResult) (t : Nat) (l : List Char)
    (atts : List Nat) : ∀ (c : Cache) (reqs : List HttpGet),
    countPrimary (fetch_loop p b t l atts c reqs).reqs ≤ countPrimary reqs + atts.length := by
  induction atts with
  | nil => intro c reqs; simp [fetch_loop]
  | cons a rest ih =>
    intro c reqs
    rcases hpa : p a with ⟨s, body⟩ | _ | _
    · by_cases hs : s = 200
      · subst hs
        rw [fetch_loop_eq_success p b t l a rest c reqs body hpa]
        simp [countPrimary_append, countPrimary_primaryReq]
      · rw [fetch_loop_eq_cont_resp p b t l a rest c reqs s body hpa hs]
        have := ih c (reqs ++ [primaryReq])
        rw [countPrimary_append, countPrimary_primaryReq] at this
        simp only [List.length_cons]
        omega
    · by_cases ha : retry_count ≤ a
      · rw [fetch_loop_eq_backup p b t l a rest c reqs hpa ha]
        have h2 : countPrimary [primaryReq, backupReq] = 1 := by decide
        rw [List.append_assoc, countPrimary_append]
        simp only [List.cons_append, List.nil_append] at *
        rw [h2]
        simp only [List.length_cons]
        omega
      · rw [fetch_loop_eq_cont_ce p b t l a rest c reqs hpa ha]
        have := ih c (reqs ++ [primaryReq])
        rw [countPrimary_append, countPrimary_primaryReq] at this
        simp only [List.length_cons]
        omega
    · rw [fetch_loop_eq_raise p b t l a rest c reqs hpa]
      simp [countPrimary_append, countPrimary_primaryReq]

theorem fetch_loop_cache_shape (p : Nat → NetResult) (b : NetResult) (t : Nat) (l : List Char)
    (atts : List Nat) : ∀ (c : Cache) (reqs : List HttpGet),
    (fetch_loop p b t l atts c reqs).cache = c ∨
    ∃ d, (∃ i, p i = NetResult.resp 200 d) ∧
      (fetch_loop p b t l atts c reqs).cache =
        Cache.insert c l (PyVal.tuple2 (PyVal.float t) (PyVal.str d)) := by
  induction atts with
  | nil => intro c reqs; left; rfl
  | cons a rest ih =>
    intro c reqs
    rcases hpa : p a with ⟨s, body⟩ | _ | _
    · by_cases hs : s = 200
      · subst hs
        rw [fetch_loop_eq_success p b t l a rest c reqs body hpa]
        exact Or.inr ⟨body, ⟨a, hpa⟩, rfl⟩
      · rw [fetch_loop_eq_cont_resp p b t l a rest c reqs s body hpa hs]
        exact ih c (reqs ++ [primaryReq])
    · by_cases ha : retry_count ≤ a
      · rw [fetch_loop_eq_backup p b t l a rest c reqs hpa ha]
        exact Or.inl rfl
      · rw [fetch_loop_eq_cont_ce p b t l a rest c reqs hpa ha]
        exact ih c (reqs ++ [primaryReq])
    · rw [fetch_loop_eq_raise p b t l a rest c reqs hpa]
      exact Or.inl rfl

theorem fetch_data_cache_shape (p : Nat → NetResult) (b : NetResult) (t : Nat) (l : List Char)
    (c : Cache) :
    (fetch_data p b t l c).cache = c ∨
    ∃ d, (∃ i, p i = NetResult.resp 200 d) ∧
      (fetch_data p b t l c).cache =
        Cache.insert c l (PyVal.tuple2 (PyVal.float t) (PyVal.str d)) :=
  fetch_loop_cache_shape p b t l (List.range (retry_count + 1)) c []

theorem fetch_data_reqs_len (p : Nat → NetResult) (b : NetResult) (t : Nat) (l : List Char)
    (c : Cache) : (fetch_data p b t l c).reqs.length ≤ 4 := by
  have := fetch_loop_reqs_len p b t l (List.range (retry_count + 1)) c []
  simpa [fetch_data, retry_count] using this

theorem fetch_data_reqs_mem (p : Nat → NetResult) (b : NetResult) (t : Nat) (l : List Char)
    (c : Cache) (r : HttpGet) (h : r ∈ (fetch_data p b t l c).reqs) :
    r = primaryReq ∨ r = backupReq := by
  rcases fetch_loop_reqs_mem p b t l (List.range (retry_count + 1)) c [] r h with h1 | h1
  · simp at h1
  · exact h1

theorem get_weather_raised (p : Nat → NetResult) (b : NetResult) (n t : Nat) (c : Cache)
    (ev : Event) : (get_weather p b n t c ev).raised = none := by
  unfold get_weather
  rcases (get_weather_body p b n t c ev).raised with _ | e <;> rfl

theorem get_weather_cache_eq (p : Nat → NetResult) (b : NetResult) (n t : Nat) (c : Cache)
    (ev : Event) : (get_weather p b n t c ev).cache = (get_weather_body p b n t c ev).cache := by
  unfold get_weather
  rcases (get_weather_body p b n t c ev).raised with _ | e <;> rfl

theorem get_weather_reqs_eq (p : Nat → NetResult) (b : NetResult) (n t : Nat) (c : Cache)
    (ev : Event) : (get_weather p b n t c ev).reqs = (get_weather_body p b n t c ev).reqs := by
  unfold get_weather
  rcases (get_weather_body p b n t c ev).raised with _ | e <;> rfl

theorem fetch_branch_cache_eq (p : Nat → NetResult) (b : NetResult) (t : Nat) (loc : List Char)
    (c : Cache) (w : Reply) :
    (fetch_branch p b t loc c w).cache = (fetch_data p b t loc c).cache := by
  unfold fetch_branch
  rcases (fetch_data p b t loc c).result with e | o
  · rfl
  · rcases o with _ | raw <;> rfl

theorem fetch_branch_reqs_eq (p : Nat → NetResult) (b : NetResult) (t : Nat) (loc : List Char)
    (c : Cache) (w : Reply) :
    (fetch_branch p b t loc c w).reqs = (fetch_data p b t loc c).reqs := by
  unfold fetch_branch
  rcases (fetch_data p b t loc c).result with e | o
  · rfl
  · rcases o with _ | raw <;> rfl

theorem body_shape (p : Nat → NetResult) (b : NetResult) (n t : Nat) (c : Cache) (ev : Event) :
    ((get_weather_body p b n t c ev).cache = c ∧ (get_weather_body p b n t c ev).reqs = []) ∨
    ((get_weather_body p b n t c ev).cache = (fetch_data p b t (joinSp ev.args) c).cache ∧
     (get_weather_body p b n t c ev).reqs = (fetch_data p b t (joinSp ev.args) c).reqs) := by
  unfold get_weather_body
  dsimp only
  repeat' split
  all_goals
    first
      | exact Or.inl ⟨rfl, rfl⟩
      | exact Or.inr ⟨fetch_branch_cache_eq p b t (joinSp ev.args) c _,
          fetch_branch_reqs_eq p b t (joinSp ev.args) c _⟩

theorem cacheInsert_isSome (c : Cache) (k : List Char) (v : PyVal) (l : List Char)
    (h : (c l).isSome = true) : ((Cache.insert c k v) l).isSome = true := by
  simp only [Cache.insert]
  by_cases hl : l = k <;> simp [hl, h]

theorem get_weather_cache_mono (p : Nat → NetResult) (b : NetResult) (n t : Nat) (c : Cache)
    (ev : Event) (l : List Char) (h : (c l).isSome = true) :
    ((get_weather p b n t c ev).cache l).isSome = true := by
  rw [get_weather_cache_eq]
  rcases body_shape p b n t c ev with ⟨hc, _⟩ | ⟨hc, _⟩
  · rw [hc]; exact h
  · rw [hc]
    rcases fetch_data_cache_shape p b t (joinSp ev.args) c with h1 | ⟨d, _, h1⟩
    · rw [h1]; exact h
    · rw [h1]
      exact cacheInsert_isSome c (joinSp ev.args) _ l h

theorem get_weather_cache_values (p : Nat → NetResult) (b : NetResult) (n t : Nat) (c : Cache)
    (ev : Event) (l : List Char) (v : PyVal)
    (h : (get_weather p b n t c ev).cache l = some v) :
    c l = some v ∨ ∃ i d, p i = NetResult.resp 200 d ∧
      v = PyVal.tuple2 (PyVal.float t) (PyVal.str d) := by
  rw [get_weather_cache_eq] at h
  rcases body_shape p b n t c ev with ⟨hc, _⟩ | ⟨hc, _⟩
  · rw [hc] at h; exact Or.inl h
  · rw [hc] at h
    rcases fetch_data_cache_shape p b t (joinSp ev.args) c with h1 | ⟨d, ⟨i, hi⟩, h1⟩
    · rw [h1] at h; exact Or.inl h
    · rw [h1] at h
      simp only [Cache.insert] at h
      by_cases hl : l = joinSp ev.args
      · rw [if_pos hl] at h
        exact Or.inr ⟨i, d, hi, (Option.some.inj h).symm⟩
      · rw [if_neg hl] at h
        exact Or.inl h

theorem runSeq_mono (seq : List Invocation) : ∀ (c : Cache) (l : List Char),
    (c l).isSome = true → ((runSeq seq c) l).isSome = true := by
  induction seq with
  | nil => intro c l h; exact h
  | cons inv rest ih =>
    intro c l h
    show ((runSeq rest (runInv inv c).cache) l).isSome = true
    exact ih _ l (get_weather_cache_mono inv.primary inv.backup inv.nowCheck inv.tStore c inv.ev l h)

theorem runSeq_values (seq : List Invocation) : ∀ (c : Cache) (l : List Char) (v : PyVal),
    runSeq seq c l = some v →
    c l = some v ∨ ∃ inv ∈ seq, ∃ i d, inv.primary i = NetResult.resp 200 d ∧
      v = PyVal.tuple2 (PyVal.float inv.tStore) (PyVal.str d) := by
  induction seq with
  | nil => intro c l v h; exact Or.inl h
  | cons inv rest ih =>
    intro c l v h
    have h' : runSeq rest ((runInv inv c).cache) l = some v := h
    rcases ih _ l v h' with h1 | ⟨inv', hmem, i, d, hi, hv⟩
    · rcases get_weather_cache_values inv.primary inv.backup inv.nowCheck inv.tStore c inv.ev
        l v h1 with h2 | ⟨i, d, hi, hv⟩
      · exact Or.inl h2
      · exact Or.inr ⟨inv, List.mem_cons_self inv rest, i, d, hi, hv⟩
    · exact Or.inr ⟨inv', List.mem_cons_of_mem inv hmem, i, d, hi, hv⟩

/-- C1: against the claim, a cache entry stored less than five minutes ago
is never reused: at the concrete state holding `(100, sampleBody)` for the
sample location and a cache check at time 200, `get_weather` does not reply
with the formatted weather message — `time.time() - cached` subtracts the
stored tuple from a float, the resulting `TypeError` is swallowed by the
handler's `except` clause, and the user receives the fixed radar-lost error
(no HTTP request is issued). -/
theorem cache_hit_yields_radar_error :
    (get_weather pOk bOk 200 200 cacheWithEntry evEx).replies =
      [Reply.message (waiting_message locEx), Reply.error radar_lost] ∧
    (get_weather pOk bOk 200 200 cacheWithEntry evEx).reqs = [] ∧
    (get_weather pOk bOk 200 200 cacheWithEntry evEx).replies ≠
      [Reply.message (waiting_message locEx),
       Reply.message (build_message (parse_weather sampleBody))] := by
  decide

/-- C2: the handler lets no exception escape (`raised = none` for every
oracle, cache and event), and whenever the `try` body raises, the handler
appends exactly the fixed radar-lost error reply. -/
theorem handler_absorbs_exceptions (p : Nat → NetResult) (b : NetResult) (n t : Nat)
    (c : Cache) (ev : Event) :
    (get_weather p b n t c ev).raised = none ∧
    (∀ e, (get_weather_body p b n t c ev).raised = some e →
      (get_weather p b n t c ev).replies =
        (get_weather_body p b n t c ev).replies ++ [Reply.error radar_lost]) := by
  refine ⟨get_weather_raised p b n t c ev, ?_⟩
  intro e he
  unfold get_weather
  rw [he]

theorem handler_absorbs_exceptions_witness :
    (get_weather pOk bOk 200 200 cacheWithEntry evEx).raised = none ∧
    (get_weather_body pOk bOk 200 200 cacheWithEntry evEx).raised = some PyExn.typeError ∧
    (get_weather pOk bOk 200 200 cacheWithEntry evEx).replies =
      (get_weather_body pOk bOk 200 200 cacheWithEntry evEx).replies ++
        [Reply.error radar_lost] :=
  ⟨(handler_absorbs_exceptions pOk bOk 200 200 cacheWithEntry evEx).1,
   by decide,
   (handler_absorbs_exceptions pOk bOk 200 200 cacheWithEntry evEx).2 PyExn.typeError
     (by decide)⟩

/-- C3 counterexample: with every primary attempt answering HTTP 500,
`_fetch_data` issues three requests to the primary API, not at most two. -/
theorem primary_three_requests_cex :
    2 < countPrimary (fetch_data pAll500 bOk 0 locEx emptyCache).reqs := by
  decide

/-- C3 (amended): `_fetch_data` issues at most three primary requests
(`range(self.retry_count + 1)` iterations with `retry_count = 2`). -/
theorem primary_requests_le_three (p : Nat → NetResult) (b : NetResult) (t : Nat)
    (l : List Char) (c : Cache) :
    countPrimary (fetch_data p b t l c).reqs ≤ 3 := by
  unfold fetch_data
  have h := fetch_loop_countPrimary p b t l (List.range (retry_count + 1)) c []
  have h0 : countPrimary [] = 0 := by decide
  rw [h0, List.length_range] at h
  simpa [retry_count] using h

/-- C4 counterexample: when every primary attempt answers HTTP 500 (so the
primary never delivers a 200 response), `_fetch_data` returns `None`
without ever querying the backup endpoint. -/
theorem non200_no_backup_cex :
    (fetch_data pAll500 bOk 0 locEx emptyCache).result = Except.ok none ∧
    backupReq ∉ (fetch_data pAll500 bOk 0 locEx emptyCache).reqs := by
  decide

/-- C4 (amended): the backup endpoint is queried exactly when the first two
primary attempts fail to return HTTP 200 and the final attempt raises
`aiohttp.ClientError`; in particular it is not queried when the primary
merely keeps answering non-200 statuses. -/
theorem backup_queried_iff_final_client_error (p : Nat → NetResult) (b : NetResult)
    (t : Nat) (l : List Char) (c : Cache) :
    (backupReq ∈ (fetch_data p b t l c).reqs) ↔
      (loopCont (p 0) = true ∧ loopCont (p 1) = true ∧ p 2 = NetResult.clientError) := by
  have hr : List.range (retry_count + 1) = [0, 1, 2] := by decide
  have hnp : ¬ backupReq = primaryReq := by decide
  unfold fetch_data
  rw [hr]
  cases h0 : loopCont (p 0)
  · rw [fetch_loop_stop p b t l 0 [1, 2] c [] h0]
    simp [hnp, h0]
  · rw [fetch_loop_cont p b t l 0 [1, 2] c [] h0 (by decide)]
    cases h1 : loopCont (p 1)
    · rw [fetch_loop_stop p b t l 1 [2] c ([] ++ [primaryReq]) h1]
      simp [hnp, h1]
    · rw [fetch_loop_cont p b t l 1 [2] c ([] ++ [primaryReq]) h1 (by decide)]
      rcases h2 : p 2 with ⟨s2, b2⟩ | _ | _
      · by_cases hs2 : s2 = 200
        · subst hs2
          rw [fetch_loop_stop p b t l 2 [] c _ (by simp [loopCont, h2])]
          simp [hnp, h2]
        · rw [fetch_loop_eq_cont_resp p b t l 2 [] c _ s2 b2 h2 hs2]
          simp [fetch_loop, hnp, h2]
      · rw [fetch_loop_eq_backup p b t l 2 [] c _ h2 (by decide)]
        simp [hnp, h0, h1, h2]
      · rw [fetch_loop_eq_raise p b t l 2 [] c _ h2]
        simp [hnp, h2]

/-- C5 counterexample: in a run reaching the backup endpoint, the backup
GET is issued by a session created without any explicit timeout, so not
every request carries a fixed 10-15 second total timeout. -/
theorem backup_timeout_missing_cex :
    backupReq ∈ (fetch_data pAllCE bOk 0 locEx emptyCache).reqs ∧
    backupReq.timeoutTotal = none := by
  decide

/-- C5 (amended): every GET issued while handling a weather command goes
either to the primary API through the session configured with
`ClientTimeout(total=10)` (which lies in the 10-15 second range), or to
the backup API through a session with no explicit timeout. -/
theorem requests_primary_or_backup_timeouts (p : Nat → NetResult) (b : NetResult)
    (n t : Nat) (c : Cache) (ev : Event) :
    ∀ r ∈ (get_weather p b n t c ev).reqs,
      (r.url = main_api ∧ r.timeoutTotal = some timeout_total ∧
        10 ≤ timeout_total ∧ timeout_total ≤ 15) ∨
      (r.url = backup_api ∧ r.timeoutTotal = none) := by
  intro r hr
  rw [get_weather_reqs_eq] at hr
  rcases body_shape p b n t c ev with ⟨_, hq⟩ | ⟨_, hq⟩
  · rw [hq] at hr
    exact absurd hr (List.not_mem_nil r)
  · rw [hq] at hr
    rcases fetch_data_reqs_mem p b t (joinSp ev.args) c r hr with h1 | h1 <;> subst h1
    · exact Or.inl ⟨rfl, rfl, by decide, by decide⟩
    · exact Or.inr ⟨rfl, rfl⟩

theorem requests_primary_or_backup_timeouts_witness :
    primaryReq ∈ (get_weather pAllCE bOk 0 0 emptyCache evEx).reqs ∧
    ((primaryReq.url = main_api ∧ primaryReq.timeoutTotal = some timeout_total ∧
        10 ≤ timeout_total ∧ timeout_total ≤ 15) ∨
      (primaryReq.url = backup_api ∧ primaryReq.timeoutTotal = none)) :=
  ⟨by decide,
   requests_primary_or_backup_timeouts pAllCE bOk 0 0 emptyCache evEx primaryReq (by decide)⟩

/-- C6: `_parse_weather` is a total function of the raw text alone whose
result carries exactly the six fixed keys; each base-info field keeps its
default (`未知地区` / `N/A`) when the base pattern does not match and takes
the first match's groups otherwise, `warnings` collects every occurrence of
the warning pattern, and `rains` is empty or holds the first rain match. -/
theorem parse_weather_spec (raw : List Char) :
    (matchBase raw = none →
      (parse_weather raw).location = unknownLoc ∧ (parse_weather raw).temp = naStr ∧
      (parse_weather raw).feel_temp = naStr ∧ (parse_weather raw).humidity = naStr) ∧
    (∀ l d1 f d2, matchBase raw = some (l, d1, f, d2) →
      (parse_weather raw).location = l ∧
      (parse_weather raw).temp = d1 ++ "℃".data ∧
      (parse_weather raw).feel_temp = f ++ "℃".data ∧
      (parse_weather raw).humidity = d2 ++ "%".data) ∧
    ((parse_weather raw).warnings = (findallWarn raw).map (fun w => "⚠️ ".data ++ w)) ∧
    (reSearchRain raw = none → (parse_weather raw).rains = []) ∧
    (∀ g1 g2, reSearchRain raw = some (g1, g2) →
      (parse_weather raw).rains = ["🌧️ ".data ++ g1 ++ zaiLit ++ g2]) := by
  unfold parse_weather
  rcases hb : matchBase raw with _ | ⟨l0, d10, f0, d20⟩ <;>
    rcases hrn : reSearchRain raw with _ | ⟨g10, g20⟩ <;>
      simp [hb, hrn]

theorem parse_weather_spec_witness :
    matchBase noMatchEx = none ∧ reSearchRain noMatchEx = none ∧
    ((parse_weather noMatchEx).location = unknownLoc ∧
      (parse_weather noMatchEx).temp = naStr ∧
      (parse_weather noMatchEx).feel_temp = naStr ∧
      (parse_weather noMatchEx).humidity = naStr) ∧
    (parse_weather noMatchEx).rains = [] :=
  ⟨by decide, by decide,
   (parse_weather_spec noMatchEx).1 (by decide),
   (parse_weather_spec noMatchEx).2.2.2.1 (by decide)⟩

/-- C7 counterexample: a single invocation on which every primary attempt
raises a client error issues four HTTP GETs (three primary attempts plus
the backup call), not at most one. -/
theorem four_requests_cex :
    1 < (get_weather pAllCE bOk 0 0 emptyCache evEx).reqs.length := by
  decide

/-- C7 (amended): every invocation of the weather command handler issues at
most four HTTP GETs: up to `retry_count + 1 = 3` primary attempts plus at
most one backup request. -/
theorem handler_reqs_le_four (p : Nat → NetResult) (b : NetResult) (n t : Nat)
    (c : Cache) (ev : Event) : (get_weather p b n t c ev).reqs.length ≤ 4 := by
  rw [get_weather_reqs_eq]
  rcases body_shape p b n t c ev with ⟨_, hq⟩ | ⟨_, hq⟩
  · rw [hq]; simp
  · rw [hq]; exact fetch_data_reqs_len p b t (joinSp ev.args) c

/-- C8: across any sequence of handler invocations the set of cached
locations never shrinks (no operation removes an entry), and the only cache
write is the one performed by a successful (HTTP 200) primary fetch, which
inserts or overwrites exactly the requested location's entry. -/
theorem cache_monotone_and_insert_shape :
    (∀ (seq : List Invocation) (c : Cache) (l : List Char),
      (c l).isSome = true → ((runSeq seq c) l).isSome = true) ∧
    (∀ (p : Nat → NetResult) (b : NetResult) (t : Nat) (l : List Char) (c : Cache),
      (fetch_data p b t l c).cache = c ∨
      ∃ d, (∃ i, p i = NetResult.resp 200 d) ∧
        (fetch_data p b t l c).cache =
          Cache.insert c l (PyVal.tuple2 (PyVal.float t) (PyVal.str d))) :=
  ⟨runSeq_mono, fetch_data_cache_shape⟩

theorem cache_monotone_and_insert_shape_witness :
    (cacheWithEntry locEx).isSome = true ∧
    ((runSeq [invOk] cacheWithEntry) locEx).isSome = true :=
  ⟨by decide, cache_monotone_and_insert_shape.1 [invOk] cacheWithEntry locEx (by decide)⟩

/-- C9: every value reachable in the cache from the empty dictionary is the
2-tuple `(time.time(), data)` stored by some invocation whose primary API
answered HTTP 200 with that very text: first component the insertion
timestamp, second the raw primary response body. -/
theorem cache_values_from_primary_fetch (seq : List Invocation) (l : List Char) (v : PyVal)
    (h : runSeq seq emptyCache l = some v) :
    ∃ inv ∈ seq, ∃ i d, inv.primary i = NetResult.resp 200 d ∧
      v = PyVal.tuple2 (PyVal.float inv.tStore) (PyVal.str d) := by
  rcases runSeq_values seq emptyCache l v h with h0 | h1
  · simp [emptyCache] at h0
  · exact h1

theorem cache_values_from_primary_fetch_witness :
    runSeq [invOk] emptyCache locEx =
      some (PyVal.tuple2 (PyVal.float 7) (PyVal.str sampleBody)) ∧
    ∃ inv ∈ [invOk], ∃ i d, inv.primary i = NetResult.resp 200 d ∧
      PyVal.tuple2 (PyVal.float 7) (PyVal.str sampleBody) =
        PyVal.tuple2 (PyVal.float inv.tStore) (PyVal.str d) :=
  ⟨by decide, cache_values_from_primary_fetch [invOk] locEx _ (by decide)⟩

/-- C10: an invocation whose event carries no arguments yields only the
fixed address-prompt error, issues no HTTP request and leaves the cache
untouched. -/
theorem no_args_short_circuit (p : Nat → NetResult) (b : NetResult) (n t : Nat)
    (c : Cache) (ev : Event) (h : ev.args = []) :
    (get_weather p b n t c ev).replies = [Reply.error addr_prompt] ∧
    (get_weather p b n t c ev).cache = c ∧
    (get_weather p b n t c ev).reqs = [] := by
  have hb : get_weather_body p b n t c ev =
      { replies := [Reply.error addr_prompt], cache := c, reqs := [], raised := none } := by
    unfold get_weather_body
    simp [h]
  unfold get_weather
  rw [hb]
  exact ⟨rfl, rfl, rfl⟩

theorem no_args_short_circuit_witness :
    evNoArgs.args = [] ∧
    (get_weather pOk bOk 0 0 emptyCache evNoArgs).replies = [Reply.error addr_prompt] ∧
    (get_weather pOk bOk 0 0 emptyCache evNoArgs).cache = emptyCache ∧
    (get_weather pOk bOk 0 0 emptyCache evNoArgs).reqs = [] :=
  ⟨rfl, no_args_short_circuit pOk bOk 0 0 emptyCache evNoArgs rfl⟩

end WeatherStar
